import Mathlib

/-!
Shallow embedding of the orchestration core of the jobseeker repository:
`src/agents/orchestrator.py` (class Orchestrator), `src/agents/sql_agent.py`
(class SQLAgent) and `src/agents/rag_agent.py` (class RAGAgent).

External LLM/backend calls (router chain, SQL agent executor, Qdrant
retrieval, generation chain) are modelled as oracle function parameters
returning `Except String String`: an `Except.error` value models a Python
exception raised by the call, an `Except.ok` value its returned string.
Pure Python string and list operations are embedded by small helpers named
after the Python construct they translate.
-/

namespace Jobseeker

/-- Contiguous-sublist test on character lists: `sub` occurs somewhere in
the second list. -/
def charsIn (sub : List Char) : List Char → Bool
  | [] => sub.isEmpty
  | c :: rest => sub.isPrefixOf (c :: rest) || charsIn sub rest

/-- Python substring membership test `sub in s` (contiguous substring). -/
def pyIn (sub s : String) : Bool :=
  charsIn sub.data s.data

/-- Python `s.startswith(p)`. -/
def pyStartsWith (p s : String) : Bool :=
  List.isPrefixOf p.data s.data

/-- Python `s.lower()`. -/
def pyLower (s : String) : String :=
  String.mk (s.data.map Char.toLower)

/-- Python slice `s[:n]` (by code points). -/
def pySlice (s : String) (n : Nat) : String :=
  String.mk (s.data.take n)

/-- Python `s.strip()`: whitespace removed from both ends. -/
def pyStrip (s : String) : String :=
  String.mk (((s.data.dropWhile Char.isWhitespace).reverse.dropWhile Char.isWhitespace).reverse)

/-- Python `sep.join(parts)`. -/
def joinWith (sep : String) : List String → String
  | [] => ""
  | [x] => x
  | x :: y :: ys => x ++ sep ++ joinWith sep (y :: ys)

/-- Python negative slice `l[-n:]`: the most recent `n` elements of `l`. -/
def lastN (n : Nat) (l : List α) : List α :=
  l.drop (l.length - n)

/-- One conversation turn: the Python dict with role and content keys. -/
structure Turn where
  role : String
  content : String
deriving DecidableEq, Repr

/-- A conversation history: the Python list of role/content dicts. -/
abbrev History := List Turn

/-- The Orchestrator.context_memory dict: session id to stored history. -/
abbrev Memory := List (String × History)

/-- Dict read: `m[sid]` as an option. -/
def memGet : Memory → String → Option History
  | [], _ => none
  | (k, v) :: rest, sid => if k = sid then some v else memGet rest sid

/-- Dict write `m[sid] = h`, preserving insertion order like a Python dict. -/
def memSet : Memory → String → History → Memory
  | [], sid, h => [(sid, h)]
  | (k, v) :: rest, sid, h =>
      if k = sid then (sid, h) :: rest else (k, v) :: memSet rest sid h

/-- Dict delete `del m[sid]`. -/
def memDel : Memory → String → Memory
  | [], _ => []
  | (k, v) :: rest, sid =>
      if k = sid then memDel rest sid else (k, v) :: memDel rest sid

/-- Reading a session history: dict lookup defaulting to the empty list
(the empty sequence for an unseen session, as the spec contract states). -/
def historyOf (m : Memory) (sid : String) : History :=
  (memGet m sid).getD []

/-- Keyword list of orchestrator.py line 84. -/
def jobKeywords : List String := ["lowongan", "Lowongan", "job", "Job"]

/-- The per-message line built in the loop body of
Orchestrator._create_context_summary, orchestrator.py lines 79-87. -/
def summaryLine (msg : Turn) : String :=
  let role := if msg.role == "user" then "User" else "Assistant"
  if role == "Assistant" && jobKeywords.any (fun k => pyIn k msg.content) then
    "[DAFTAR LOWONGAN DIBERIKAN SEBELUMNYA]\n" ++ pySlice msg.content 500 ++ "..."
  else
    role ++ ": " ++ pySlice msg.content 200

/-- Orchestrator._create_context_summary, orchestrator.py lines 70-89. -/
def create_context_summary (history : History) : String :=
  if history.isEmpty then ""
  else joinWith "\n" ((lastN 5 history).map summaryLine)

/-- Referential-cue words of orchestrator.py line 118. -/
def refWords : List String := ["nomor", "no.", "lowongan", "point", "poin"]

/-- The test on orchestrator.py line 118. -/
def hasRefCue (q : String) : Bool :=
  refWords.any (fun w => pyIn w (pyLower q))

/-- Quantity/aggregate cue words of orchestrator.py line 139. -/
def sqlCueWords : List String := ["berapa", "jumlah", "statistik", "data"]

/-- The test on orchestrator.py line 139. -/
def hasSqlCue (q : String) : Bool :=
  sqlCueWords.any (fun w => pyIn w (pyLower q))

/-- The reversed-history scan of orchestrator.py lines 120-124. -/
def findJobTurn (history : History) : Option Turn :=
  history.reverse.find?
    (fun t => t.role == "assistant" && (pyIn "lowongan" t.content || pyIn "Lowongan" t.content))

/-- The context_ref value built in route_query step 2, orchestrator.py
lines 112-124. -/
def computeContextRef (q : String) (history : History) : String :=
  if history.isEmpty then ""
  else
    let base := create_context_summary history
    if hasRefCue q then
      match findJobTurn history with
      | some t => "Konteks spesifik (dari percakapan sebelumnya):\n" ++ t.content ++ "\n\n"
      | none => base
    else base

/-- The query_with_context string handed to the router chain,
orchestrator.py line 130. -/
def routerInput (q : String) (history : History) : String :=
  "Konteks percakapan sebelumnya: " ++ pySlice (computeContextRef q history) 500
    ++ "\n\nPertanyaan user: " ++ q

/-- The fixed apology returned by the except clause, orchestrator.py line 157. -/
def apology : String := "Maaf, ada kendala teknis. Bisa ulangi pertanyaannya?"

/-- The request handed to SQLAgent.run on the USE_SQL branch,
orchestrator.py lines 138-142: the context block is prepended only when
context_ref is non-empty and the query carries a quantity/aggregate cue
word; otherwise the raw query passes through unmodified. -/
def sqlRequest (q : String) (history : History) : String :=
  if (computeContextRef q history != "") && hasSqlCue q then
    computeContextRef q history ++ "\n\n" ++ q
  else q

/-- The request handed to RAGAgent.run on the USE_RAG branch,
orchestrator.py line 146: the context block is always included. -/
def ragRequest (q : String) (history : History) : String :=
  computeContextRef q history ++ "\n\nPertanyaan user: " ++ q

/-- Steps 1-2 of route_query: ensure the session key exists, then, when a
non-empty history is supplied, overwrite the entry with its last 10 turns
(orchestrator.py lines 104-110). -/
def updateMemory (m : Memory) (sid : String) (history : History) : Memory :=
  let m1 := if (memGet m sid).isNone then memSet m sid [] else m
  if history.isEmpty then m1 else memSet m1 sid (lastN 10 history)

/-- The external calls route_query can make, as oracles. `router` is the
classifier chain invoke (line 131), `sqlRun` is SQLAgent.run, `ragRun` is
RAGAgent.run, `chat` is _handle_chat_with_context (whose own body is one
generation-chain invoke on the query and history). -/
structure Oracles where
  router : String → Except String String
  sqlRun : String → Except String String
  ragRun : String → Except String String
  chat : String → History → Except String String

/-- Which responder route_query invoked, and with which request text. -/
inductive Dispatch where
  | sql (request : String)
  | rag (request : String)
  | chat (query : String)
  | errored
deriving DecidableEq, Repr

/-- Result of one route_query call: returned string, context_memory after
the call, and the dispatch that took place. -/
structure RouteResult where
  response : String
  memory : Memory
  dispatch : Dispatch
deriving DecidableEq, Repr

/-- Orchestrator.route_query, orchestrator.py lines 91-157. The whole body
sits in a try block whose except clause returns `apology`; the memory
mutation of lines 104-110 happens before any fallible call, so it persists
on the error path too. A responder that raises still received its request,
so the dispatch is recorded before the responder outcome is inspected. -/
def route_query (o : Oracles) (m : Memory) (q : String) (history : History) (sid : String) :
    RouteResult :=
  let mem2 := updateMemory m sid history
  match o.router (routerInput q history) with
  | Except.error _ => ⟨apology, mem2, Dispatch.errored⟩
  | Except.ok out =>
    let decision := pyStrip out
    if pyIn "USE_SQL" decision then
      match o.sqlRun (sqlRequest q history) with
      | Except.ok r => ⟨r, mem2, Dispatch.sql (sqlRequest q history)⟩
      | Except.error _ => ⟨apology, mem2, Dispatch.sql (sqlRequest q history)⟩
    else if pyIn "USE_RAG" decision then
      match o.ragRun (ragRequest q history) with
      | Except.ok r => ⟨r, mem2, Dispatch.rag (ragRequest q history)⟩
      | Except.error _ => ⟨apology, mem2, Dispatch.rag (ragRequest q history)⟩
    else
      match o.chat q history with
      | Except.ok r => ⟨r, mem2, Dispatch.chat q⟩
      | Except.error _ => ⟨apology, mem2, Dispatch.chat q⟩

/-- Orchestrator.clear_memory, orchestrator.py lines 202-206. -/
def clear_memory (m : Memory) (sid : String) : Memory :=
  if (memGet m sid).isSome then memDel m sid else m

/-- One public operation on the orchestrator state. -/
inductive Op where
  | route (o : Oracles) (q : String) (history : History) (sid : String)
  | clear (sid : String)

/-- Run a sequence of public operations against the context memory. -/
def runOps : Memory → List Op → Memory
  | m, [] => m
  | m, Op.route o q h sid :: rest => runOps (route_query o m q h sid).memory rest
  | m, Op.clear sid :: rest => runOps (clear_memory m sid) rest

/-- SQLAgent instance state: the attributes its run method reads.
SQLAgent.__init__ (sql_agent.py lines 16-63) assigns db, llm, toolkit and
agent_executor, and never assigns langfuse_handler; the attribute table is
modelled with an Option for that attribute, none meaning absent, so that
reading it raises AttributeError. -/
structure SQLAgent where
  agent_executor : String → Except String String
  langfuse_handler : Option Unit

/-- The state produced by SQLAgent.__init__: agent_executor assigned,
langfuse_handler never assigned. -/
def SQLAgent.mkInit (exec : String → Except String String) : SQLAgent :=
  { agent_executor := exec, langfuse_handler := none }

/-- The str() rendering of the AttributeError raised when sql_agent.py line
92 reads self.langfuse_handler. -/
def attrErrorMsg : String :=
  "\x27SQLAgent\x27 object has no attribute \x27langfuse_handler\x27"

/-- The history-enhanced query template of sql_agent.py lines 79-86. -/
def sqlHistoryTemplate (conversation_history q : String) : String :=
  "\nPrevious conversation context:\n" ++ conversation_history
    ++ "\n\nCurrent question: " ++ q
    ++ "\n\nPlease answer the current question using the database. If the question references previous conversation (like \"what about...\", \"how many of those...\", etc.), use the context to understand what they\x27re referring to.\n"

/-- SQLAgent.run, sql_agent.py lines 65-100. Inside the try block the
config argument reads self.langfuse_handler before agent_executor.invoke
can run; a raised exception is converted by the except clause into the
Error executing query string. -/
def SQLAgent.run (a : SQLAgent) (query : String) (conversation_history : Option String) :
    String :=
  let enhanced :=
    match conversation_history with
    | some ch => if ch == "" then query else sqlHistoryTemplate ch query
    | none => query
  let body : Except String String :=
    match a.langfuse_handler with
    | none => Except.error attrErrorMsg
    | some _ => a.agent_executor enhanced
  match body with
  | Except.ok r => r
  | Except.error e => "Error executing query: " ++ e

/-- External calls of RAGAgent.run: `retrieve` is retrieve_documents (which
catches its own exceptions and returns a list of page contents, empty on
failure or no hits, rag_agent.py lines 73-98), `generate` is the generation
chain invoke on the context and question variables (line 157). -/
structure RAGOracles where
  retrieve : String → List String
  generate : String → String → Except String String

/-- The context marker tested in rag_agent.py line 107. -/
def jobListMarker : String := "[DAFTAR LOWONGAN DIBERIKAN SEBELUMNYA]"

/-- Result of one RAGAgent.run call, with the number of retrieve_documents
invocations it performed. -/
structure RAGResult where
  result : Except String String
  retrievalCalls : Nat
deriving Repr

/-- RAGAgent.run, rag_agent.py lines 100-158. When the query carries the
job-list marker the context is cut out of the query text itself and no
retrieval happens; otherwise retrieve_documents is called once and its
documents (or a fixed no-data line) become the context. -/
def RAGAgent.run (o : RAGOracles) (query : String) : RAGResult :=
  if pyIn jobListMarker query then
    let parts := query.splitOn jobListMarker
    if parts.length > 1 then
      let context_part := ((parts.getD 1 "").splitOn "\n\nPertanyaan user:").headD ""
      let question_part := parts.getLastD ""
      { result := o.generate context_part question_part, retrievalCalls := 0 }
    else
      { result := o.generate "" query, retrievalCalls := 0 }
  else
    let docs := o.retrieve query
    let context_text :=
      if docs.isEmpty then "No specific data found in the database."
      else joinWith "\n\n" docs
    { result := o.generate context_text query, retrievalCalls := 1 }

/-- Concrete oracle bundle whose classifier always answers `d` and whose
responders succeed, tagging their request so the dispatched branch is
visible in the response. -/
def oraclesWith (d : String) : Oracles :=
  { router := fun _ => Except.ok d
  , sqlRun := fun r => Except.ok ("SQL:" ++ r)
  , ragRun := fun r => Except.ok ("RAG:" ++ r)
  , chat := fun q _ => Except.ok ("CHAT:" ++ q) }

/-- Concrete oracle bundle whose classifier call raises. -/
def failRouterOracles : Oracles :=
  { router := fun _ => Except.error "boom"
  , sqlRun := fun r => Except.ok ("SQL:" ++ r)
  , ragRun := fun r => Except.ok ("RAG:" ++ r)
  , chat := fun q _ => Except.ok ("CHAT:" ++ q) }

/-- Concrete oracle bundle routing to SQL whose SQL responder raises. -/
def sqlFailOracles : Oracles :=
  { router := fun _ => Except.ok "USE_SQL"
  , sqlRun := fun _ => Except.error "db down"
  , ragRun := fun r => Except.ok ("RAG:" ++ r)
  , chat := fun q _ => Except.ok ("CHAT:" ++ q) }

/-- Bounded-memory invariant: no stored session history has more than 10
turns. -/
def MemBounded (m : Memory) : Prop :=
  ∀ sid, (historyOf m sid).length ≤ 10

theorem memGet_memSet_self (m : Memory) (k : String) (v : History) :
    memGet (memSet m k v) k = some v := by
  induction m with
  | nil => simp [memSet, memGet]
  | cons p rest ih =>
      obtain ⟨k', v'⟩ := p
      by_cases hk : k' = k
      · simp [memSet, hk, memGet]
      · simp [memSet, hk, memGet, ih]

theorem memGet_memSet_ne (m : Memory) (k k₂ : String) (v : History) (hne : k₂ ≠ k) :
    memGet (memSet m k v) k₂ = memGet m k₂ := by
  induction m with
  | nil => simp [memSet, memGet, Ne.symm hne]
  | cons p rest ih =>
      obtain ⟨k', v'⟩ := p
      by_cases hk : k' = k
      · subst hk
        simp [memSet, memGet, Ne.symm hne]
      · simp [memSet, hk, memGet, ih]

theorem memGet_memDel_self (m : Memory) (k : String) :
    memGet (memDel m k) k = none := by
  induction m with
  | nil => simp [memDel, memGet]
  | cons p rest ih =>
      obtain ⟨k', v'⟩ := p
      by_cases hk : k' = k
      · simp [memDel, hk, ih]
      · simp [memDel, hk, memGet, ih]

theorem memGet_memDel_ne (m : Memory) (k k₂ : String) (hne : k₂ ≠ k) :
    memGet (memDel m k) k₂ = memGet m k₂ := by
  induction m with
  | nil => simp [memDel, memGet]
  | cons p rest ih =>
      obtain ⟨k', v'⟩ := p
      by_cases hk : k' = k
      · subst hk
        simp [memDel, memGet, Ne.symm hne, ih]
      · simp [memDel, hk, memGet, ih]

theorem route_query_memory (o : Oracles) (m : Memory) (q : String) (h : History)
    (sid : String) : (route_query o m q h sid).memory = updateMemory m sid h := by
  unfold route_query
  cases hr : o.router (routerInput q h) with
  | error e => rfl
  | ok out =>
      simp only
      split
      · cases hs : Oracles.sqlRun o _ <;> rfl
      · split
        · cases hs : Oracles.ragRun o _ <;> rfl
        · cases hs : Oracles.chat o q h <;> rfl

theorem historyOf_updateMemory_self (m : Memory) (sid : String) (h : History) :
    historyOf (updateMemory m sid h) sid =
      if h.isEmpty then historyOf m sid else lastN 10 h := by
  unfold updateMemory historyOf
  by_cases hh : h.isEmpty
  · simp only [hh, if_true]
    by_cases hg : (memGet m sid).isNone
    · rw [Option.isNone_iff_eq_none] at hg
      simp [hg, memGet_memSet_self]
    · simp [hg]
  · simp [hh, memGet_memSet_self]

theorem historyOf_updateMemory_ne (m : Memory) (sid sid₂ : String) (h : History)
    (hne : sid₂ ≠ sid) :
    historyOf (updateMemory m sid h) sid₂ = historyOf m sid₂ := by
  unfold updateMemory historyOf
  by_cases hh : h.isEmpty <;> by_cases hg : (memGet m sid).isNone <;>
    simp [hh, hg, memGet_memSet_ne _ _ _ _ hne]

theorem length_lastN (n : Nat) (l : List α) : (lastN n l).length ≤ n := by
  unfold lastN
  rw [List.length_drop]
  omega

theorem memBounded_updateMemory (m : Memory) (sid : String) (h : History)
    (hm : MemBounded m) : MemBounded (updateMemory m sid h) := by
  intro sid₂
  by_cases hs : sid₂ = sid
  · subst hs
    rw [historyOf_updateMemory_self]
    split
    · exact hm sid₂
    · exact length_lastN 10 h
  · rw [historyOf_updateMemory_ne _ _ _ _ hs]
    exact hm sid₂

theorem memBounded_clear (m : Memory) (sid : String) (hm : MemBounded m) :
    MemBounded (clear_memory m sid) := by
  intro sid₂
  unfold clear_memory
  split
  · by_cases hs : sid₂ = sid
    · subst hs
      unfold historyOf
      rw [memGet_memDel_self]
      simp
    · unfold historyOf
      rw [memGet_memDel_ne _ _ _ hs]
      exact hm sid₂
  · exact hm sid₂

theorem ne_empty_of_length_pos (s : String) (h : 0 < s.length) : s ≠ "" := by
  intro he
  subst he
  simp at h

theorem length_pos_of_ne_empty (s : String) (h : s ≠ "") : 0 < s.length := by
  rcases s with ⟨l⟩
  cases l with
  | nil => exact absurd rfl h
  | cons c cs => simp [String.length]

theorem append_ne_empty_left (a b : String) (ha : a ≠ "") : a ++ b ≠ "" := by
  apply ne_empty_of_length_pos
  rw [String.length_append]
  have := length_pos_of_ne_empty a ha
  omega

theorem joinWith_cons_ne_empty (sep x : String) (xs : List String) (hx : x ≠ "") :
    joinWith sep (x :: xs) ≠ "" := by
  cases xs with
  | nil => simpa [joinWith]
  | cons y ys => exact append_ne_empty_left _ _ (append_ne_empty_left _ _ hx)

theorem summaryLine_ne_empty (msg : Turn) : summaryLine msg ≠ "" := by
  unfold summaryLine
  split <;> simp only <;> split <;>
    exact append_ne_empty_left _ _ (append_ne_empty_left _ _ (by decide))

theorem lastN_ne_nil (n : Nat) (l : List α) (hl : l ≠ []) (hn : 0 < n) :
    lastN n l ≠ [] := by
  unfold lastN
  intro hcontra
  have hlen := congrArg List.length hcontra
  rw [List.length_drop] at hlen
  have hpos : 0 < l.length := List.length_pos.mpr hl
  simp at hlen
  omega

theorem create_context_summary_ne_empty (h : History) (hne : h ≠ []) :
    create_context_summary h ≠ "" := by
  unfold create_context_summary
  rw [if_neg (by simp [hne])]
  cases hc : lastN 5 h with
  | nil => exact absurd hc (lastN_ne_nil 5 h hne (by omega))
  | cons x xs =>
      rw [List.map_cons]
      exact joinWith_cons_ne_empty _ _ _ (summaryLine_ne_empty x)

theorem computeContextRef_ne_empty (q : String) (h : History) (hne : h ≠ []) :
    computeContextRef q h ≠ "" := by
  unfold computeContextRef
  rw [if_neg (by simp [hne])]
  split
  · split
    · exact append_ne_empty_left _ _ (append_ne_empty_left _ _ (by decide))
    · exact create_context_summary_ne_empty h hne
  · exact create_context_summary_ne_empty h hne

theorem computeContextRef_eq_empty_iff (q : String) (h : History) :
    computeContextRef q h = "" ↔ h = [] := by
  constructor
  · intro hc
    by_contra hne
    exact computeContextRef_ne_empty q h hne hc
  · intro hh
    subst hh
    rfl

theorem route_query_router_error (o : Oracles) (m : Memory) (q : String) (h : History)
    (sid : String) (e : String) (hr : o.router (routerInput q h) = Except.error e) :
    route_query o m q h sid = ⟨apology, updateMemory m sid h, Dispatch.errored⟩ := by
  unfold route_query
  rw [hr]

theorem route_query_sql_branch (o : Oracles) (m : Memory) (q : String) (h : History)
    (sid : String) (out : String) (hr : o.router (routerInput q h) = Except.ok out)
    (hsql : pyIn "USE_SQL" (pyStrip out) = true) :
    route_query o m q h sid =
      (match o.sqlRun (sqlRequest q h) with
      | Except.ok r => ⟨r, updateMemory m sid h, Dispatch.sql (sqlRequest q h)⟩
      | Except.error _ => ⟨apology, updateMemory m sid h, Dispatch.sql (sqlRequest q h)⟩) := by
  unfold route_query
  rw [hr]
  simp only [hsql, if_true]

theorem route_query_rag_branch (o : Oracles) (m : Memory) (q : String) (h : History)
    (sid : String) (out : String) (hr : o.router (routerInput q h) = Except.ok out)
    (hsql : pyIn "USE_SQL" (pyStrip out) = false)
    (hrag : pyIn "USE_RAG" (pyStrip out) = true) :
    route_query o m q h sid =
      (match o.ragRun (ragRequest q h) with
      | Except.ok r => ⟨r, updateMemory m sid h, Dispatch.rag (ragRequest q h)⟩
      | Except.error _ => ⟨apology, updateMemory m sid h, Dispatch.rag (ragRequest q h)⟩) := by
  unfold route_query
  rw [hr]
  simp only [hsql, hrag, if_true, if_false, Bool.false_eq_true]

theorem route_query_chat_branch (o : Oracles) (m : Memory) (q : String) (h : History)
    (sid : String) (out : String) (hr : o.router (routerInput q h) = Except.ok out)
    (hsql : pyIn "USE_SQL" (pyStrip out) = false)
    (hrag : pyIn "USE_RAG" (pyStrip out) = false) :
    route_query o m q h sid =
      (match o.chat q h with
      | Except.ok r => ⟨r, updateMemory m sid h, Dispatch.chat q⟩
      | Except.error _ => ⟨apology, updateMemory m sid h, Dispatch.chat q⟩) := by
  unfold route_query
  rw [hr]
  simp only [hsql, hrag, if_false, Bool.false_eq_true]

theorem memBounded_runOps (ops : List Op) (m : Memory) (hm : MemBounded m) :
    MemBounded (runOps m ops) := by
  induction ops generalizing m with
  | nil => exact hm
  | cons op rest ih =>
      cases op with
      | route o q h sid =>
          unfold runOps
          refine ih _ ?_
          rw [route_query_memory]
          exact memBounded_updateMemory _ _ _ hm
      | clear sid =>
          unfold runOps
          exact ih _ (memBounded_clear _ _ hm)

theorem lastN_of_length_le (n : Nat) (l : List α) (hl : l.length ≤ n) :
    lastN n l = l := by
  unfold lastN
  have hz : l.length - n = 0 := by omega
  rw [hz, List.drop_zero]

theorem clear_memory_of_absent (m : Memory) (sid : String)
    (hg : memGet m sid = none) : clear_memory m sid = m := by
  unfold clear_memory
  simp [hg]

theorem memGet_clear_memory_self (m : Memory) (sid : String) :
    memGet (clear_memory m sid) sid = none := by
  unfold clear_memory
  cases hg : memGet m sid with
  | none => simp [hg]
  | some v => simp [hg, memGet_memDel_self]

/-- C4: over any sequence of route_query and clear_memory calls starting
from the empty context memory, no stored per-session history ever exceeds
10 turns; and whenever route_query is given a non-empty history, the
session entry afterwards holds exactly the most recent 10 turns of it
(the oldest entries are dropped). -/
theorem context_memory_bounded (ops : List Op) (sid : String) :
    (historyOf (runOps [] ops) sid).length ≤ 10 ∧
    ∀ (o : Oracles) (m : Memory) (q : String) (h : History) (s : String),
      h ≠ [] → historyOf (route_query o m q h s).memory s = lastN 10 h := by
  constructor
  · exact memBounded_runOps ops [] (fun s2 => by simp [historyOf, memGet]) sid
  · intro o m q h s hne
    rw [route_query_memory, historyOf_updateMemory_self, if_neg (by simp [hne])]

/-- Witness for C4 at a concrete operation sequence and a concrete
12-turn history, checking that only the last 10 turns are kept. -/
theorem context_memory_bounded_witness :
    (historyOf (runOps []
      [Op.route (oraclesWith "CHAT") "Hai" (List.replicate 12 (Turn.mk "user" "x")) "s1"])
      "s1").length ≤ 10 ∧
    historyOf (route_query (oraclesWith "CHAT") [] "Hai"
        (List.replicate 12 (Turn.mk "user" "x")) "s1").memory "s1"
      = lastN 10 (List.replicate 12 (Turn.mk "user" "x")) :=
  ⟨(context_memory_bounded
      [Op.route (oraclesWith "CHAT") "Hai" (List.replicate 12 (Turn.mk "user" "x")) "s1"]
      "s1").1,
   (context_memory_bounded [] "s1").2 (oraclesWith "CHAT") [] "Hai"
      (List.replicate 12 (Turn.mk "user" "x")) "s1" (by decide)⟩

/-- C7: clear_memory deletes the session entry entirely, is idempotent,
is the identity (raising no error) when the session is absent, and a
subsequent read of the session history yields the empty sequence. -/
theorem clear_memory_resets (m : Memory) (sid : String) :
    historyOf (clear_memory m sid) sid = [] ∧
    memGet (clear_memory m sid) sid = none ∧
    clear_memory (clear_memory m sid) sid = clear_memory m sid ∧
    (memGet m sid = none → clear_memory m sid = m) := by
  refine ⟨?_, memGet_clear_memory_self m sid, ?_, clear_memory_of_absent m sid⟩
  · unfold historyOf
    rw [memGet_clear_memory_self]
    rfl
  · exact clear_memory_of_absent _ _ (memGet_clear_memory_self m sid)

/-- Witness for C7: clearing a session that is not present leaves the
memory untouched. -/
theorem clear_memory_resets_witness :
    clear_memory [("a", ([] : History))] "b" = [("a", [])] :=
  (clear_memory_resets [("a", [])] "b").2.2.2 (by decide)

/-- C8: the summarizer is a pure function of the supplied history: two
calls on the same history give identical text, it returns the empty string
on the empty history, and its value depends only on the most recent five
turns it renders. -/
theorem create_context_summary_deterministic :
    create_context_summary [] = "" ∧
    (∀ h : History, create_context_summary h = create_context_summary h) ∧
    (∀ h : History, create_context_summary h = create_context_summary (lastN 5 h)) := by
  refine ⟨rfl, fun h => rfl, fun h => ?_⟩
  by_cases hh : h = []
  · subst hh
    rfl
  · unfold create_context_summary
    rw [if_neg (by simp [hh]), if_neg (by simp [lastN_ne_nil 5 h hh (by omega)]),
      lastN_of_length_le 5 (lastN 5 h) (length_lastN 5 h)]

/-- C9: SQLAgent.run never reaches its success branch: __init__ leaves
langfuse_handler unassigned, so the config argument read inside the try
block raises AttributeError on every call, and the except clause turns it
into the Error executing query string. The result starts with that fixed
prefix, and is independent of the agent executor, which is never reached. -/
theorem sql_run_always_error (exec exec2 : String → Except String String) (q : String)
    (ch : Option String) :
    SQLAgent.run (SQLAgent.mkInit exec) q ch = "Error executing query: " ++ attrErrorMsg ∧
    pyStartsWith "Error executing query:" (SQLAgent.run (SQLAgent.mkInit exec) q ch) = true ∧
    SQLAgent.run (SQLAgent.mkInit exec) q ch = SQLAgent.run (SQLAgent.mkInit exec2) q ch := by
  refine ⟨rfl, ?_, rfl⟩
  show pyStartsWith "Error executing query:" ("Error executing query: " ++ attrErrorMsg) = true
  decide

/-- C10: when the request carries the job-list marker, RAGAgent.run takes
its generation context from the request text itself and never calls
retrieve_documents, leaving the vector index untouched. -/
theorem rag_marker_skips_retrieval (o : RAGOracles) (q : String)
    (hm : pyIn jobListMarker q = true) :
    (RAGAgent.run o q).retrievalCalls = 0 := by
  unfold RAGAgent.run
  simp only [hm, if_true]
  split <;> rfl

/-- Witness for C10 at a concrete marker-carrying request. -/
theorem rag_marker_skips_retrieval_witness :
    (RAGAgent.run ⟨fun _ => [], fun c q2 => Except.ok (c ++ q2)⟩ jobListMarker).retrievalCalls
      = 0 :=
  rag_marker_skips_retrieval ⟨fun _ => [], fun c q2 => Except.ok (c ++ q2)⟩ jobListMarker
    (by decide)

/-- C2 counterexample: the classifier output GARBAGE contains none of the
three category tokens, yet route_query dispatches the query to the
conversational handler, not to the retrieval responder as the claim
states. -/
theorem route_query_default_not_rag_cex :
    pyIn "USE_SQL" "GARBAGE" = false ∧
    pyIn "USE_RAG" "GARBAGE" = false ∧
    pyIn "CHAT" "GARBAGE" = false ∧
    (route_query (oraclesWith "GARBAGE") [] "Hai" [] "s1").dispatch = Dispatch.chat "Hai" ∧
    (route_query (oraclesWith "GARBAGE") [] "Hai" [] "s1").response = "CHAT:Hai" := by
  exact ⟨by decide, by decide, by decide, rfl, rfl⟩

/-- C2 amended: classifier output that contains neither USE_SQL nor
USE_RAG (in particular output containing none of the three category
tokens) falls through to the else branch, so route_query dispatches the
query to the conversational handler _handle_chat_with_context; there is no
default to the retrieval responder in the code. -/
theorem route_query_default_chat (o : Oracles) (m : Memory) (q : String) (h : History)
    (s : String) (out : String) (hr : o.router (routerInput q h) = Except.ok out)
    (hsql : pyIn "USE_SQL" (pyStrip out) = false)
    (hrag : pyIn "USE_RAG" (pyStrip out) = false) :
    (route_query o m q h s).dispatch = Dispatch.chat q := by
  rw [route_query_chat_branch o m q h s out hr hsql hrag]
  cases o.chat q h <;> rfl

/-- Witness for the amended C2 at a concrete malformed classifier output. -/
theorem route_query_default_chat_witness :
    (route_query (oraclesWith "hello") [] "Hai" [] "s1").dispatch = Dispatch.chat "Hai" :=
  route_query_default_chat (oraclesWith "hello") [] "Hai" [] "s1" "hello" rfl
    (by decide) (by decide)

/-- C3 counterexample: a fully successful exchange (classifier answers
CHAT, the conversational responder answers) appends nothing to the context
memory: the session entry stays the stored copy of the supplied history
(here empty) and contains neither the user turn nor the responder turn of
the exchange. -/
theorem route_query_no_append_cex :
    (route_query (oraclesWith "CHAT") [] "Hai" [] "s1").response = "CHAT:Hai" ∧
    (route_query (oraclesWith "CHAT") [] "Hai" [] "s1").response ≠ apology ∧
    historyOf (route_query (oraclesWith "CHAT") [] "Hai" [] "s1").memory "s1" = [] ∧
    ¬ Turn.mk "user" "Hai"
        ∈ historyOf (route_query (oraclesWith "CHAT") [] "Hai" [] "s1").memory "s1" ∧
    ¬ Turn.mk "assistant" "CHAT:Hai"
        ∈ historyOf (route_query (oraclesWith "CHAT") [] "Hai" [] "s1").memory "s1" := by
  exact ⟨rfl, by decide, rfl, by decide, by decide⟩

/-- C3 amended: route_query never appends the turns of the current
exchange to the context memory. The only memory write is the one performed
before dispatch: the session entry is overwritten with the last 10 turns
of the caller-supplied history (left unchanged when that history is
empty), other sessions are untouched, and the resulting memory is
identical whatever the oracles and the query do - in particular it is the
same on successful and on failed exchanges, so no response or error text
is ever recorded. -/
theorem route_query_memory_from_history (o o2 : Oracles) (m : Memory) (q q2 : String)
    (h : History) (s sid : String) :
    (sid ≠ s → historyOf (route_query o m q h s).memory sid = historyOf m sid) ∧
    historyOf (route_query o m q h s).memory s
      = (if h.isEmpty then historyOf m s else lastN 10 h) ∧
    (route_query o2 m q2 h s).memory = (route_query o m q h s).memory := by
  refine ⟨?_, ?_, ?_⟩
  · intro hne
    rw [route_query_memory]
    exact historyOf_updateMemory_ne m s sid h hne
  · rw [route_query_memory]
    exact historyOf_updateMemory_self m s h
  · rw [route_query_memory, route_query_memory]

/-- Witness for the amended C3: a route_query call on session s1 leaves
the (empty) history of session s2 unchanged, the stored s1 entry comes
from the supplied history, and a run with failing oracles leaves the same
memory as a successful one. -/
theorem route_query_memory_from_history_witness :
    historyOf (route_query (oraclesWith "CHAT") [] "Hai" [Turn.mk "user" "x"] "s1").memory
        "s2" = historyOf ([] : Memory) "s2" ∧
    historyOf (route_query (oraclesWith "CHAT") [] "Hai" [Turn.mk "user" "x"] "s1").memory
        "s1" = (if ([Turn.mk "user" "x"] : History).isEmpty then historyOf ([] : Memory) "s1"
          else lastN 10 [Turn.mk "user" "x"]) ∧
    (route_query failRouterOracles [] "Lain" [Turn.mk "user" "x"] "s1").memory
      = (route_query (oraclesWith "CHAT") [] "Hai" [Turn.mk "user" "x"] "s1").memory :=
  ⟨(route_query_memory_from_history (oraclesWith "CHAT") failRouterOracles [] "Hai" "Lain"
      [Turn.mk "user" "x"] "s1" "s2").1 (by decide),
   (route_query_memory_from_history (oraclesWith "CHAT") failRouterOracles [] "Hai" "Lain"
      [Turn.mk "user" "x"] "s1" "s2").2.1,
   (route_query_memory_from_history (oraclesWith "CHAT") failRouterOracles [] "Hai" "Lain"
      [Turn.mk "user" "x"] "s1" "s2").2.2⟩

/-- C6: on the USE_SQL branch the conversation-context block is prepended
to the request passed to SQLAgent.run exactly when prior context exists
(the supplied history is non-empty, equivalently context_ref is non-empty)
and the query contains one of the quantity/aggregate cue words; in every
other case the raw query is passed unmodified. -/
theorem sql_context_injection (o : Oracles) (m : Memory) (q : String) (h : History)
    (s : String) (out : String) (hr : o.router (routerInput q h) = Except.ok out)
    (hsql : pyIn "USE_SQL" (pyStrip out) = true) :
    (computeContextRef q h ≠ "" ↔ h ≠ []) ∧
    (h ≠ [] → hasSqlCue q = true →
      (route_query o m q h s).dispatch
        = Dispatch.sql (computeContextRef q h ++ "\n\n" ++ q)) ∧
    (h = [] ∨ hasSqlCue q = false →
      (route_query o m q h s).dispatch = Dispatch.sql q) := by
  refine ⟨not_congr (computeContextRef_eq_empty_iff q h), ?_, ?_⟩
  · intro hne hcue
    have hreq : sqlRequest q h = computeContextRef q h ++ "\n\n" ++ q := by
      unfold sqlRequest
      rw [if_pos]
      simp [hcue, bne_iff_ne, computeContextRef_ne_empty q h hne]
    rw [route_query_sql_branch o m q h s out hr hsql, hreq]
    cases o.sqlRun (computeContextRef q h ++ "\n\n" ++ q) <;> rfl
  · intro hor
    have hreq : sqlRequest q h = q := by
      unfold sqlRequest
      rcases hor with hh | hc
      · rw [if_neg]
        simp [(computeContextRef_eq_empty_iff q h).mpr hh]
      · rw [if_neg]
        simp [hc]
    rw [route_query_sql_branch o m q h s out hr hsql, hreq]
    cases o.sqlRun q <;> rfl

/-- Witness for C6: with one prior turn and the cue word berapa the
context block is prepended; with no history the raw query goes through. -/
theorem sql_context_injection_witness :
    (route_query (oraclesWith "USE_SQL") [] "berapa" [Turn.mk "user" "x"] "s1").dispatch
      = Dispatch.sql (computeContextRef "berapa" [Turn.mk "user" "x"] ++ "\n\n" ++ "berapa") ∧
    (route_query (oraclesWith "USE_SQL") [] "berapa" [] "s1").dispatch
      = Dispatch.sql "berapa" :=
  ⟨(sql_context_injection (oraclesWith "USE_SQL") [] "berapa" [Turn.mk "user" "x"] "s1"
      "USE_SQL" rfl (by decide)).2.1 (by decide) (by decide),
   (sql_context_injection (oraclesWith "USE_SQL") [] "berapa" [] "s1"
      "USE_SQL" rfl (by decide)).2.2 (Or.inl rfl)⟩

/-- C1: route_query never propagates an exception: it is total (its type
returns a plain string), and whenever the classifier call or the
dispatched responder raises, the returned string is the fixed, non-empty
apology Maaf, ada kendala teknis. Bisa ulangi pertanyaannya? -/
theorem route_query_catches_responder_errors (o : Oracles) (m : Memory) (q : String)
    (h : History) (s : String) :
    apology = "Maaf, ada kendala teknis. Bisa ulangi pertanyaannya?" ∧
    apology ≠ "" ∧
    ((route_query o m q h s).dispatch = Dispatch.errored →
      (route_query o m q h s).response = apology) ∧
    (∀ req e, (route_query o m q h s).dispatch = Dispatch.sql req →
      o.sqlRun req = Except.error e → (route_query o m q h s).response = apology) ∧
    (∀ req e, (route_query o m q h s).dispatch = Dispatch.rag req →
      o.ragRun req = Except.error e → (route_query o m q h s).response = apology) ∧
    (∀ e, (route_query o m q h s).dispatch = Dispatch.chat q →
      o.chat q h = Except.error e → (route_query o m q h s).response = apology) := by
  cases hr : o.router (routerInput q h) with
  | error e0 =>
      rw [route_query_router_error o m q h s e0 hr]
      refine ⟨rfl, by decide, fun _ => rfl, ?_, ?_, ?_⟩
      · intro req e hd herr
        simp at hd
      · intro req e hd herr
        simp at hd
      · intro e hd herr
        simp at hd
  | ok out =>
      by_cases hsql : pyIn "USE_SQL" (pyStrip out) = true
      · rw [route_query_sql_branch o m q h s out hr hsql]
        cases hc : o.sqlRun (sqlRequest q h) with
        | ok r =>
            refine ⟨rfl, by decide, ?_, ?_, ?_, ?_⟩
            · intro hd
              simp at hd
            · intro req e hd herr
              simp only [Dispatch.sql.injEq] at hd
              rw [← hd, hc] at herr
              cases herr
            · intro req e hd herr
              simp at hd
            · intro e hd herr
              simp at hd
        | error e1 =>
            refine ⟨rfl, by decide, ?_, fun req e hd herr => rfl, ?_, ?_⟩
            · intro hd
              simp at hd
            · intro req e hd herr
              simp at hd
            · intro e hd herr
              simp at hd
      · rw [Bool.not_eq_true] at hsql
        by_cases hrag : pyIn "USE_RAG" (pyStrip out) = true
        · rw [route_query_rag_branch o m q h s out hr hsql hrag]
          cases hc : o.ragRun (ragRequest q h) with
          | ok r =>
              refine ⟨rfl, by decide, ?_, ?_, ?_, ?_⟩
              · intro hd
                simp at hd
              · intro req e hd herr
                simp at hd
              · intro req e hd herr
                simp only [Dispatch.rag.injEq] at hd
                rw [← hd, hc] at herr
                cases herr
              · intro e hd herr
                simp at hd
          | error e1 =>
              refine ⟨rfl, by decide, ?_, ?_, fun req e hd herr => rfl, ?_⟩
              · intro hd
                simp at hd
              · intro req e hd herr
                simp at hd
              · intro e hd herr
                simp at hd
        · rw [Bool.not_eq_true] at hrag
          rw [route_query_chat_branch o m q h s out hr hsql hrag]
          cases hc : o.chat q h with
          | ok r =>
              refine ⟨rfl, by decide, ?_, ?_, ?_, ?_⟩
              · intro hd
                simp at hd
              · intro req e hd herr
                simp at hd
              · intro req e hd herr
                simp at hd
              · intro e hd herr
                cases herr
          | error e1 =>
              refine ⟨rfl, by decide, ?_, ?_, ?_, fun e hd herr => rfl⟩
              · intro hd
                simp at hd
              · intro req e hd herr
                simp at hd
              · intro req e hd herr
                simp at hd

/-- Witness for C1: with a raising classifier, and with a classifier that
answers USE_SQL but a raising SQL responder, route_query returns the
apology. -/
theorem route_query_catches_responder_errors_witness :
    (route_query failRouterOracles [] "Hai" [] "s1").response = apology ∧
    (route_query sqlFailOracles [] "Hai" [] "s1").response = apology :=
  ⟨(route_query_catches_responder_errors failRouterOracles [] "Hai" [] "s1").2.2.1 rfl,
   (route_query_catches_responder_errors sqlFailOracles [] "Hai" [] "s1").2.2.2.1
      "Hai" "db down" rfl rfl⟩

end Jobseeker
